import Mathlib

set_option maxRecDepth 8000

/-!
Shallow embedding of the archival-history analysis engine of this repository:
the retrying fetcher (`ReportService.safe_request`), the CDX pagination loop and
snapshot statistics of `ReportService.analyze_domain`, the long-live batch filter
of `ReportService.generate_report`, and the second engine implementation
`WaybackService.analyze_domain`.  Python floats arising in the statistics are
modelled as exact rationals (`PyFloat`); Python `None` and absent dict keys are
modelled as `Option.none`.
-/

/-- Exact rational number, always kept in normalized form (coprime numerator and
positive denominator).  Used to model the values of Python floats computed by the
engine (interval means, fractional day counts); arithmetic is exact where Python
uses IEEE doubles, which is faithful at the magnitudes the engine handles. -/
structure PyFloat where
  num : Int
  den : Nat
deriving DecidableEq, Repr

/-- Build a normalized `PyFloat` from an integer numerator and denominator. -/
def PyFloat.mk' (n d : Int) : PyFloat :=
  if d = 0 then ⟨0, 0⟩
  else
    let n' := if d < 0 then -n else n
    let d' := (if d < 0 then -d else d).toNat
    let g := n'.natAbs.gcd d'
    ⟨n'.tdiv g, d' / g⟩

instance (n : Nat) : OfNat PyFloat n := ⟨⟨(n : Int), 1⟩⟩

/-- Embed an integer. -/
def PyFloat.ofInt (n : Int) : PyFloat := ⟨n, 1⟩

instance : LT PyFloat := ⟨fun a b => a.num * (b.den : Int) < b.num * (a.den : Int)⟩

instance : LE PyFloat := ⟨fun a b => a.num * (b.den : Int) ≤ b.num * (a.den : Int)⟩

instance (a b : PyFloat) : Decidable (a < b) :=
  inferInstanceAs (Decidable (a.num * (b.den : Int) < b.num * (a.den : Int)))

instance (a b : PyFloat) : Decidable (a ≤ b) :=
  inferInstanceAs (Decidable (a.num * (b.den : Int) ≤ b.num * (a.den : Int)))

/-- Addition. -/
def PyFloat.add (a b : PyFloat) : PyFloat :=
  PyFloat.mk' (a.num * (b.den : Int) + b.num * (a.den : Int)) ((a.den : Int) * (b.den : Int))

/-- Subtraction. -/
def PyFloat.sub (a b : PyFloat) : PyFloat :=
  PyFloat.mk' (a.num * (b.den : Int) - b.num * (a.den : Int)) ((a.den : Int) * (b.den : Int))

/-- Multiplication. -/
def PyFloat.mul (a b : PyFloat) : PyFloat :=
  PyFloat.mk' (a.num * b.num) ((a.den : Int) * (b.den : Int))

/-- Division (callers never divide by zero in the embedded code paths). -/
def PyFloat.div (a b : PyFloat) : PyFloat :=
  PyFloat.mk' (a.num * (b.den : Int)) ((a.den : Int) * b.num)

/-- Sum of a list, as Python `sum` over floats. -/
def PyFloat.listSum (l : List PyFloat) : PyFloat :=
  l.foldl PyFloat.add 0

/-- Python `max` over a non-empty float list; `none` on the empty list. -/
def PyFloat.listMax : List PyFloat → Option PyFloat
  | [] => none
  | x :: xs => some (xs.foldl (fun a b => if a < b then b else a) x)

/-- Python `math.floor` on an exact rational. -/
def PyFloat.floor (a : PyFloat) : Int := Int.fdiv a.num a.den

/-- Python `round(x)`: round half to even. -/
def PyFloat.roundHalfEven (a : PyFloat) : Int :=
  let f := a.floor
  let r := a.sub (PyFloat.ofInt f)
  if r < PyFloat.mk' 1 2 then f
  else if PyFloat.mk' 1 2 < r then f + 1
  else if f % 2 = 0 then f else f + 1

/-- Python `round(x, 2)`: round to two decimal places, half to even. -/
def PyFloat.round2 (a : PyFloat) : PyFloat :=
  PyFloat.mk' (PyFloat.roundHalfEven (a.mul (PyFloat.ofInt 100))) 100

/-- Python `statistics.mean` on a list of integer gaps (exact rational mean). -/
def PyFloat.meanOfInts (l : List Int) : PyFloat :=
  PyFloat.div (PyFloat.ofInt l.sum) (PyFloat.ofInt l.length)

/-- Proleptic Gregorian leap-year test, as in Python `datetime`. -/
def isLeapYear (y : Nat) : Bool :=
  y % 4 == 0 && (y % 100 != 0 || y % 400 == 0)

/-- Number of days in a month of the proleptic Gregorian calendar. -/
def daysInMonth (y m : Nat) : Nat :=
  if m = 2 then (if isLeapYear y then 29 else 28)
  else if m = 4 ∨ m = 6 ∨ m = 9 ∨ m = 11 then 30
  else 31

/-- Days since 1970-01-01 of a proleptic-Gregorian civil date (Hinnant's
days-from-civil algorithm), matching Python `datetime.date` ordinal arithmetic. -/
def daysFromCivil (y m d : Int) : Int :=
  let yy := if m ≤ 2 then y - 1 else y
  let era := Int.fdiv yy 400
  let yoe := yy - era * 400
  let mp := Int.emod (m + 9) 12
  let doy := Int.fdiv (153 * mp + 2) 5 + d - 1
  let doe := yoe * 365 + Int.fdiv yoe 4 - Int.fdiv yoe 100 + doy
  era * 146097 + doe - 719468

/-- A parsed `datetime` value (what `datetime.strptime(ts, "%Y%m%d%H%M%S")` yields). -/
structure DateTime where
  year : Nat
  month : Nat
  day : Nat
  hour : Nat
  minute : Nat
  second : Nat
deriving DecidableEq, Repr, Inhabited

/-- Seconds since the epoch of a `datetime` value; Python `datetime` subtraction and
comparison agree with subtraction and comparison of these values. -/
def DateTime.toSec (t : DateTime) : Int :=
  daysFromCivil t.year t.month t.day * 86400 + t.hour * 3600 + t.minute * 60 + t.second

/-- Numeric value of a run of decimal digit characters, most significant first. -/
def digitsVal (cs : List Char) : Nat :=
  cs.foldl (fun a c => a * 10 + (c.toNat - 48)) 0

/-- Embedding of `datetime.strptime(ts, "%Y%m%d%H%M%S")` on the archive's canonical
14-digit timestamps: succeeds exactly on strings of 14 decimal digits that denote a
valid proleptic-Gregorian instant (year at least 1), as the Python parser does on
such strings; any other string fails (raises `ValueError` in the source). -/
def parseTs (s : String) : Option DateTime :=
  let cs := s.toList
  if cs.length = 14 ∧ cs.all Char.isDigit then
    let y := digitsVal (cs.take 4)
    let mo := digitsVal ((cs.drop 4).take 2)
    let d := digitsVal ((cs.drop 6).take 2)
    let h := digitsVal ((cs.drop 8).take 2)
    let mi := digitsVal ((cs.drop 10).take 2)
    let se := digitsVal ((cs.drop 12).take 2)
    if 1 ≤ y ∧ 1 ≤ mo ∧ mo ≤ 12 ∧ 1 ≤ d ∧ d ≤ daysInMonth y mo ∧ h ≤ 23 ∧ mi ≤ 59 ∧ se ≤ 59
    then some ⟨y, mo, d, h, mi, se⟩
    else none
  else none

/-- Embedding of Python `(b - a).days`: the `timedelta` day count is the floor of the
signed difference in seconds over 86400. -/
def gapDays (a b : DateTime) : Int :=
  Int.fdiv (b.toSec - a.toSec) 86400

/-- Python string comparison (code-point lexicographic) on character lists. -/
def charsLe : List Char → List Char → Bool
  | [], _ => true
  | _ :: _, [] => false
  | a :: as, b :: bs =>
    if a.toNat < b.toNat then true
    else if b.toNat < a.toNat then false
    else charsLe as bs

/-- Python string comparison (code-point lexicographic). -/
def strLe (a b : String) : Bool := charsLe a.toList b.toList

/-- Insert into a sorted list, keeping earlier elements first on ties (stability). -/
def insLe (le : α → α → Bool) (a : α) : List α → List α
  | [] => [a]
  | b :: bs => if le a b then a :: b :: bs else b :: insLe le a bs

/-- Stable insertion sort; agrees with Python `sorted` / `list.sort` for the total
orders used here. -/
def sortLe (le : α → α → Bool) : List α → List α
  | [] => []
  | a :: as => insLe le a (sortLe le as)

/-- Count of non-overlapping occurrences of the marker `web/` in a character list,
as Python `str.count("web/")`: because no proper prefix of `web/` is also its
suffix, occurrences can never overlap, so counting every start position is exactly
the non-overlapping count. -/
def countWebAux : List Char → Nat
  | [] => 0
  | c :: rest =>
    (if c = 'w' ∧ rest.take 3 = ['e', 'b', '/'] then 1 else 0) + countWebAux rest

/-- Count of `web/` markers in a timemap response body. -/
def countWeb (s : String) : Nat := countWebAux s.toList

namespace ReportService

/-- The `RETRY_COUNT` constant of the source (3 attempts). -/
def RETRY_COUNT : Nat := 3

/-- The `RETRY_DELAY` constant of the source (2 seconds). -/
def RETRY_DELAY : Nat := 2

/-- Outcome of a single upstream HTTP attempt, as discriminated by `safe_request`:
a successful decoded body, an empty JSON body, a JSON decode failure after a 200,
an HTTP error status raised by `raise_for_status`, a timeout, another client error,
or an unexpected exception. -/
inductive AttemptOutcome (α : Type) where
  | ok (body : α)
  | emptyJson
  | badJson
  | httpError (status : Nat)
  | timeoutErr
  | clientErr
  | unexpectedErr
deriving DecidableEq, Repr

/-- Observable result of a whole `safe_request` call: the value returned
(`none` models Python `None`), the number of upstream requests issued, and the
total number of seconds slept across all backoffs. -/
structure FetchRun (α : Type) where
  result : Option α
  requests : Nat
  delay : Nat
deriving DecidableEq, Repr

/-- The retry loop of `safe_request` (`for attempt in range(1, RETRY_COUNT + 1)`).
`remaining` counts loop iterations left, `attempt` is the 1-based attempt number,
`requests` and `delay` accumulate issued requests and slept seconds.  Faithful to
the source: the 429 branch sleeps `RETRY_DELAY * attempt * 2` and the 5xx branch
sleeps `RETRY_DELAY * attempt`, and both then ALSO fall through to the common
`RETRY_DELAY * attempt` sleep taken before every non-final next attempt; a 4xx
status other than 429, a timeout, a client error, an unexpected error, or a JSON
decode failure returns `None` only on the final attempt and otherwise falls
through to the common sleep and is retried; an empty JSON body returns `None`
immediately; loop exhaustion returns `None`. -/
def safe_request_aux (f : Nat → AttemptOutcome α) :
    Nat → Nat → Nat → Nat → FetchRun α
  | 0, _, requests, delay => ⟨none, requests, delay⟩
  | remaining + 1, attempt, requests, delay =>
    let requests' := requests + 1
    let next := fun (extra : Nat) =>
      let d := delay + extra
      let d' := if attempt < RETRY_COUNT then d + RETRY_DELAY * attempt else d
      safe_request_aux f remaining (attempt + 1) requests' d'
    match f attempt with
    | .ok b => ⟨some b, requests', delay⟩
    | .emptyJson => ⟨none, requests', delay⟩
    | .badJson =>
      if attempt = RETRY_COUNT then ⟨none, requests', delay⟩ else next 0
    | .httpError s =>
      if s = 429 then next (RETRY_DELAY * attempt * 2)
      else if 500 ≤ s then next (RETRY_DELAY * attempt)
      else if attempt = RETRY_COUNT then ⟨none, requests', delay⟩
      else next 0
    | .timeoutErr =>
      if attempt = RETRY_COUNT then ⟨none, requests', delay⟩ else next 0
    | .clientErr =>
      if attempt = RETRY_COUNT then ⟨none, requests', delay⟩ else next 0
    | .unexpectedErr =>
      if attempt = RETRY_COUNT then ⟨none, requests', delay⟩ else next 0

/-- `safe_request`: run the retry loop from attempt 1 with nothing accumulated;
`f` maps each attempt number to that attempt's upstream outcome. -/
def safe_request (f : Nat → AttemptOutcome α) : FetchRun α :=
  safe_request_aux f RETRY_COUNT 1 0 0

/-- A JSON cell value inside a CDX response row: a string or `null`. -/
abbrev Cell := Option String

/-- A capture record as `analyze_domain` builds it: the Python dict
`dict(zip(cols, row))` (or a dict-form row taken as is), i.e. an association
list from column names to cell values. -/
abbrev CdxRecord := List (Cell × Cell)

/-- Python dict lookup combined with the `k in r` membership test: `none` when the
key is absent, `some v` when present with value `v`; with duplicate column names
the last binding wins, as in `dict(zip(cols, row))`. -/
def recGet (r : CdxRecord) (k : String) : Option Cell :=
  (r.reverse.find? (fun p => p.1 == some k)).map (fun p => p.2)

/-- One item of a CDX JSON batch: a JSON array row, a JSON object row, or any
other JSON value (string, number, ...). -/
inductive CdxBatchItem where
  | arr (cells : List Cell)
  | obj (fields : List (Cell × Cell))
  | other
deriving DecidableEq, Repr

/-- A CDX response batch (one page), as decoded JSON. -/
abbrev CdxBatch := List CdxBatchItem

/-- Rows of one header-prefixed CDX page that survive the malformed-row filter:
only list rows whose field count equals the header's are kept and zipped with the
column names; anything else is skipped with a warning (not fatal). -/
def pageRecordsHeaders (cols : List Cell) (rows : List CdxBatchItem) : List CdxRecord :=
  rows.filterMap (fun item =>
    match item with
    | .arr row => if row.length = cols.length then some (cols.zip row) else none
    | _ => none)

/-- Items of a headerless (dict-form) CDX page that survive the malformed-item
filter: only dict items are kept (the whole batch, first item included). -/
def pageRecordsDicts (batch : List CdxBatchItem) : List CdxRecord :=
  batch.filterMap (fun item =>
    match item with
    | .obj fields => some fields
    | _ => none)

/-- The CDX pagination `while True` loop of `analyze_domain`.  `fetch offset` is
the (already `safe_request`-normalized) upstream page at that offset, `none`
modelling a failed request or a non-list response.  `fuel` bounds the number of
iterations so the model is a total function; a `none` result models
non-termination, which the source loop exhibits only for `limit ≤ 0` against an
upstream that keeps producing full well-formed pages.  Returns the accumulated
record list and the number of upstream CDX requests issued. -/
def cdx_loop (fetch : Nat → Option CdxBatch) (limit : Nat) :
    Nat → Nat → List CdxRecord → Nat → Option (List CdxRecord × Nat)
  | 0, _, _, _ => none
  | fuel + 1, offset, records, calls =>
    let calls' := calls + 1
    match fetch offset with
    | none => some (records, calls')
    | some [] => some (records, calls')
    | some (first :: rest) =>
      match first with
      | .arr cols =>
        if rest = [] then some (records, calls')
        else
          let current := pageRecordsHeaders cols rest
          let records' := records ++ current
          if current.length < limit then some (records', calls')
          else if 50000 < offset + limit ∧ 0 < limit then some (records', calls')
          else cdx_loop fetch limit fuel (offset + limit) records' calls'
      | .obj _ =>
        let current := pageRecordsDicts (first :: rest)
        let records' := records ++ current
        if current.length < limit then some (records', calls')
        else if 50000 < offset + limit ∧ 0 < limit then some (records', calls')
        else cdx_loop fetch limit fuel (offset + limit) records' calls'
      | .other => some (records, calls')

/-- Iteration budget that the termination theorem shows is never exhausted for any
positive page size. -/
def CDX_FUEL : Nat := 50001

/-- The whole capture enumeration: run the pagination loop from offset 0. -/
def cdx_paginate (fetch : Nat → Option CdxBatch) (limit : Nat) :
    Option (List CdxRecord × Nat) :=
  cdx_loop fetch limit CDX_FUEL 0 [] 0

/-- The `closest` object of an availability response. -/
structure AvailClosest where
  available : Option Bool
  timestamp : Option String
deriving DecidableEq, Repr

/-- An availability response: `closest` is `none` whenever `archived_snapshots`
is missing or its `closest` entry is absent or falsy. -/
structure AvailResp where
  closest : Option AvailClosest
deriving DecidableEq, Repr

/-- The snapshot-statistics fields of the analysis dict (the keys nulled together
by the `for k in (...)` loops of the source). -/
structure SnapshotStats where
  first_snapshot : Option DateTime
  last_snapshot : Option DateTime
  avg_interval_days : Option PyFloat
  max_gap_days : Option Int
  years_covered : Option Nat
  snapshots_per_year : Option (List (Nat × Nat))
  unique_versions : Option Nat
deriving DecidableEq, Repr

/-- The analysis dict built by `ReportService.analyze_domain`, one field per dict
key (the `domain` string and the wall-clock `analysis_time_sec` are not modelled;
`snapshots_per_year` carries the year histogram that the source JSON-encodes).
`none` models a key set to Python `None`.  The source never writes an `error` key
into this dict; the field is kept, always `none`, so that its absence can be
stated. -/
structure DomainInfo where
  has_snapshot : Bool
  availability_ts : Option String
  total_snapshots : Nat
  timemap_count : Nat
  first_snapshot : Option DateTime
  last_snapshot : Option DateTime
  avg_interval_days : Option PyFloat
  max_gap_days : Option Int
  years_covered : Option Nat
  snapshots_per_year : Option (List (Nat × Nat))
  unique_versions : Option Nat
  is_good : Bool
  recommended : Bool
  error : Option String
deriving DecidableEq, Repr

/-- All statistics fields null, as the source's `for k in (...)` loops set them. -/
def SnapshotStats.nulls : SnapshotStats :=
  ⟨none, none, none, none, none, none, none⟩

/-- The timestamp extraction and sort:
`sorted([r["timestamp"] for r in records if "timestamp" in r and r["timestamp"] is not None])`. -/
def sortedTimes (records : List CdxRecord) : List String :=
  sortLe strLe (records.filterMap (fun r => (recGet r "timestamp").bind id))

/-- The parsed date list
`[datetime.strptime(ts, "%Y%m%d%H%M%S") for ts in times if len(ts) == 14]`.
`none` models the `ValueError` raised when some 14-character timestamp fails to
parse; the surrounding `except` then nulls every statistic. -/
def parsedDates (records : List CdxRecord) : Option (List DateTime) :=
  let times14 := (sortedTimes records).filter (fun ts => ts.length == 14)
  if times14.all (fun ts => (parseTs ts).isSome) then some (times14.filterMap parseTs)
  else none

/-- The consecutive-gap list in days:
`[(dates[i] - dates[i-1]).days for i in range(1, len(dates))]`. -/
def gapsOf (dates : List DateTime) : List Int :=
  (dates.zip dates.tail).map (fun p => gapDays p.1 p.2)

/-- The distinct calendar years `{d.year for d in dates}`, in ascending order as
`sorted(list(years))` produces them. -/
def yearsOf (dates : List DateTime) : List Nat :=
  sortLe (fun a b => a ≤ b) (dates.map (fun d => d.year)).dedup

/-- The snapshot-statistics block of `analyze_domain` (the `if records:` tail):
empty record list nulls everything, a parse failure nulls everything, an empty
parsed-date list nulls everything; otherwise first/last snapshot, the gap
statistics (mean rounded to 2 decimals, or 0 when there are no gaps; max gap, or
0 when there are no gaps), the distinct-year count, the per-year histogram and
the distinct-digest count are computed. -/
def snapshot_stats (records : List CdxRecord) : SnapshotStats :=
  if records = [] then SnapshotStats.nulls
  else
    match parsedDates records with
    | none => SnapshotStats.nulls
    | some dates =>
      if dates = [] then SnapshotStats.nulls
      else
        let gaps := gapsOf dates
        let avg : Option PyFloat :=
          if gaps = [] then some 0 else some (PyFloat.round2 (PyFloat.meanOfInts gaps))
        let mx : Option Int := if gaps = [] then some 0 else gaps.max?
        let years := yearsOf dates
        { first_snapshot := dates.head?
          last_snapshot := dates.getLast?
          avg_interval_days := avg
          max_gap_days := mx
          years_covered := some years.length
          snapshots_per_year :=
            some (years.map (fun y => (y, (dates.filter (fun d => d.year == y)).length)))
          unique_versions := some (records.filterMap (fun r => recGet r "digest")).dedup.length }

/-- The `is_good` flag:
`total_snapshots >= 1 and max_gap_days is not None and max_gap_days < 365`. -/
def is_good_flag (total : Nat) (maxGap : Option Int) : Bool :=
  decide (1 ≤ total) &&
    (match maxGap with
     | some m => decide (m < 365)
     | none => false)

/-- The `recommended` flag:
`total_snapshots >= 200 and avg_interval_days is not None and avg_interval_days < 30`. -/
def recommended_flag (total : Nat) (avg : Option PyFloat) : Bool :=
  decide (200 ≤ total) &&
    (match avg with
     | some a => decide (a < PyFloat.ofInt 30)
     | none => false)

/-- The tail of `analyze_domain` after the three fetches: availability-field
extraction, record count, timemap marker count, snapshot statistics and flags,
as a function of the availability response, the accumulated CDX records and the
timemap response body. -/
def analyze_from (avail : Option AvailResp) (records : List CdxRecord)
    (tm : Option String) : DomainInfo :=
  let availPair : Bool × Option String :=
    match avail with
    | some a =>
      match a.closest with
      | some c => (c.available.getD false, c.timestamp)
      | none => (false, none)
    | none => (false, none)
  let total := records.length
  let tmCount := match tm with | some s => countWeb s | none => 0
  let s := snapshot_stats records
  { has_snapshot := availPair.1
    availability_ts := availPair.2
    total_snapshots := total
    timemap_count := tmCount
    first_snapshot := s.first_snapshot
    last_snapshot := s.last_snapshot
    avg_interval_days := s.avg_interval_days
    max_gap_days := s.max_gap_days
    years_covered := s.years_covered
    snapshots_per_year := s.snapshots_per_year
    unique_versions := s.unique_versions
    is_good := is_good_flag total s.max_gap_days
    recommended := recommended_flag total s.avg_interval_days
    error := none }

/-- The whole `analyze_domain`: CDX pagination composed with the analysis tail;
`none` only when the pagination model runs out of fuel (`limit ≤ 0` pathology). -/
def analyze_domain (avail : Option AvailResp) (cdxFetch : Nat → Option CdxBatch)
    (limit : Nat) (tm : Option String) : Option DomainInfo :=
  (cdx_paginate cdxFetch limit).map (fun pr => analyze_from avail pr.1 tm)

/-- The per-domain result collection of `generate_report`: one `analyze_domain`
task per input domain; every analysis returns a non-empty (hence truthy) dict, so
each input domain contributes exactly one result row.  `as_completed` yields
results in completion order, modelled here as input order (the claims proved
below do not depend on the order). -/
def run_batch (domains : List String) (analyzeOf : String → DomainInfo) :
    List DomainInfo :=
  domains.map analyzeOf

/-- One row of the results DataFrame restricted to the five columns the long-live
filter reads; `none` models NaN after `pd.to_numeric(..., errors="coerce")`
(i.e. a missing or non-numeric value). -/
structure ResultRow where
  total_snapshots : Option PyFloat
  years_covered : Option PyFloat
  avg_interval_days : Option PyFloat
  max_gap_days : Option PyFloat
  timemap_count : Option PyFloat
deriving DecidableEq, Repr

/-- The `.fillna(0)` coercion applied to `total_snapshots`, `years_covered` and
`timemap_count`. -/
def fill0 (x : Option PyFloat) : PyFloat := x.getD 0

/-- Comparison of a `.fillna(float("inf"))`-coerced column against a finite
threshold: positive infinity is less than nothing, so an absent value compares
`False` under `<`. -/
def fillInfLt (x : Option PyFloat) (c : PyFloat) : Bool :=
  match x with
  | some v => decide (v < c)
  | none => false

/-- The long-live row filter of `generate_report`:
`total_snapshots >= 5 & years_covered >= 3 & avg_interval_days < 90 & max_gap_days < 180 & timemap_count > 200`
applied after the numeric coercions. -/
def long_live_filter (r : ResultRow) : Bool :=
  decide (PyFloat.ofInt 5 ≤ fill0 r.total_snapshots) &&
  decide (PyFloat.ofInt 3 ≤ fill0 r.years_covered) &&
  fillInfLt r.avg_interval_days (PyFloat.ofInt 90) &&
  fillInfLt r.max_gap_days (PyFloat.ofInt 180) &&
  decide (PyFloat.ofInt 200 < fill0 r.timemap_count)

/-- Projection of an analysis dict onto the five filtered columns: numeric values
stay numeric, Python `None` becomes NaN (here `none`) under `pd.to_numeric`. -/
def toResultRow (i : DomainInfo) : ResultRow :=
  { total_snapshots := some (PyFloat.ofInt (i.total_snapshots : Int))
    years_covered := i.years_covered.map (fun n => PyFloat.ofInt (n : Int))
    avg_interval_days := i.avg_interval_days
    max_gap_days := i.max_gap_days.map PyFloat.ofInt
    timemap_count := some (PyFloat.ofInt (i.timemap_count : Int)) }

end ReportService

namespace WaybackService

/-- One snapshot object yielded by the archive-client library: `timestamp` is
`none` when the attribute is missing or `None` (the source catches the
`AttributeError`). -/
structure WbSnapshot where
  timestamp : Option String
  original : String
deriving DecidableEq, Repr

/-- The result dict of `WaybackService.analyze_domain`; `none` models an absent
key (the `total_snapshots == 0` early return omits the statistics keys entirely)
or a Python `None` value. -/
structure WaybackInfo where
  total_snapshots : Nat
  first_snapshot_date : Option DateTime
  last_snapshot_date : Option DateTime
  years_covered : Option PyFloat
  avg_interval_days : Option PyFloat
  max_gap_days : Option PyFloat
  is_long_live : Option Bool
deriving DecidableEq, Repr

/-- Embedding of `WaybackService.analyze_domain` as a function of the snapshot
list returned by the library: zero snapshots short-circuit to a result whose
statistics keys are absent; otherwise timestamps that are falsy or fail to parse
are skipped, the rest are sorted, intervals are exact fractional day differences,
the average is their mean (0 with no intervals), the maximum gap is their max
(0 with no intervals), `years_covered` is the fractional-year span
`(last - first) / 365.25` when more than one timestamp parsed (else 0), and
`is_long_live` is the four-condition classification
`total >= 5 and years >= 3 and avg < 90 and max < 180`. -/
def analyze_domain (snaps : List WbSnapshot) : WaybackInfo :=
  if snaps.length = 0 then
    { total_snapshots := 0
      first_snapshot_date := none
      last_snapshot_date := none
      years_covered := none
      avg_interval_days := none
      max_gap_days := none
      is_long_live := none }
  else
    let timestamps := sortLe (fun a b => decide (a.toSec ≤ b.toSec))
      (snaps.filterMap (fun s =>
        match s.timestamp with
        | some ts => if ts = "" then none else parseTs ts
        | none => none))
    let intervals : List PyFloat := (timestamps.zip timestamps.tail).map
      (fun p => PyFloat.div (PyFloat.ofInt (p.2.toSec - p.1.toSec)) (PyFloat.ofInt 86400))
    let avg : PyFloat :=
      if intervals = [] then 0
      else PyFloat.div (PyFloat.listSum intervals) (PyFloat.ofInt intervals.length)
    let mx : PyFloat := (PyFloat.listMax intervals).getD 0
    let years : PyFloat :=
      if 1 < timestamps.length then
        PyFloat.div (PyFloat.ofInt (timestamps.getLastI.toSec - timestamps.headI.toSec))
          (PyFloat.mul (PyFloat.ofInt 86400) (PyFloat.mk' 1461 4))
      else 0
    let total := snaps.length
    { total_snapshots := total
      first_snapshot_date := timestamps.head?
      last_snapshot_date := timestamps.getLast?
      years_covered := some years
      avg_interval_days := some avg
      max_gap_days := some mx
      is_long_live :=
        some (decide (5 ≤ total) && decide (PyFloat.ofInt 3 ≤ years) &&
          decide (avg < PyFloat.ofInt 90) && decide (mx < PyFloat.ofInt 180)) }

end WaybackService

/-- The long-live classification exactly as the specification words it: all five
threshold conditions, including the `timemapCaptureCount > 200` one. -/
def spec_isLongLive (total years avg maxGap tmCount : PyFloat) : Prop :=
  PyFloat.ofInt 5 ≤ total ∧ PyFloat.ofInt 3 ≤ years ∧ avg < PyFloat.ofInt 90 ∧
    maxGap < PyFloat.ofInt 180 ∧ PyFloat.ofInt 200 < tmCount

instance (total years avg maxGap tmCount : PyFloat) :
    Decidable (spec_isLongLive total years avg maxGap tmCount) :=
  inferInstanceAs (Decidable (_ ∧ _ ∧ _ ∧ _ ∧ _))

/-- Fixture: a well-formed capture record (2020-01-01). -/
def capRecA : ReportService.CdxRecord :=
  [(some "timestamp", some "20200101000000"),
   (some "original", some "http://a.example/"),
   (some "digest", some "AAA")]

/-- Fixture: a well-formed capture record two days later (2020-01-03). -/
def capRecB : ReportService.CdxRecord :=
  [(some "timestamp", some "20200103000000"),
   (some "original", some "http://a.example/"),
   (some "digest", some "BBB")]

/-- Fixture: a capture record whose timestamp has 14 characters but no valid
calendar reading (month 15), so `strptime` raises on it. -/
def capRecBad : ReportService.CdxRecord :=
  [(some "timestamp", some "20201501000000"),
   (some "original", some "http://a.example/"),
   (some "digest", some "CCC")]

/-- Fixture: the parsed date of `capRecA`. -/
def dtA : DateTime := ⟨2020, 1, 1, 0, 0, 0⟩

/-- Fixture: the parsed date of `capRecB`. -/
def dtB : DateTime := ⟨2020, 1, 3, 0, 0, 0⟩

/-- Fixture: 14 snapshots spanning 2018-01-01 .. 2021-02-15 (1141 days, about
3.12 years) whose gap list is five zero-day gaps and eight gaps of at most 153
days with mean about 87.8 days, so the wayback implementation classifies the
domain long-live. -/
def longLiveSnaps : List WaybackService.WbSnapshot :=
  (["20180101000000", "20180101000000", "20180101000000", "20180101000000",
    "20180101000000", "20180101000000", "20180601000000", "20181101000000",
    "20190401000000", "20190901000000", "20200201000000", "20200701000000",
    "20201201000000", "20210215000000"]).map (fun ts => ⟨some ts, "http://a.example/"⟩)

/-- Fixture: the CDX header row. -/
def cdxHdrItem : ReportService.CdxBatchItem :=
  ReportService.CdxBatchItem.arr [some "timestamp", some "original", some "digest"]

/-- Fixture: a well-formed CDX data row. -/
def cdxRowItem : ReportService.CdxBatchItem :=
  ReportService.CdxBatchItem.arr
    [some "20200101000000", some "http://a.example/", some "AAA"]

/-- Fixture: an upstream that answers offset 0 with a header plus 50001
well-formed rows (a full page for `limit = 50001`) and every later offset with a
header-only page. -/
def c9FetchBig : Nat → Option ReportService.CdxBatch :=
  fun off => if off = 0 then some (cdxHdrItem :: List.replicate 50001 cdxRowItem)
             else some [cdxHdrItem]

/-- Fixture: the header cells used by the 2-page pagination witness. -/
def c9Cols : List ReportService.Cell := [some "timestamp", some "original", some "digest"]

/-- Fixture: two well-formed rows, a full page for `limit = 2`. -/
def c9Rows : List ReportService.CdxBatchItem :=
  [ReportService.CdxBatchItem.arr [some "20200101000000", some "http://a.example/", some "AAA"],
   ReportService.CdxBatchItem.arr [some "20200103000000", some "http://a.example/", some "BBB"]]

/-- Fixture: an upstream with one full page at offset 0 and a header-only page
afterwards. -/
def c9Fetch2 : Nat → Option ReportService.CdxBatch :=
  fun off => if off = 0 then some (ReportService.CdxBatchItem.arr c9Cols :: c9Rows)
             else some [ReportService.CdxBatchItem.arr c9Cols]

/-- Helper: `filterMap` of a constantly-successful function over `replicate`. -/
theorem filterMap_replicate_some {α β : Type} (f : α → Option β) (a : α) (b : β)
    (h : f a = some b) : ∀ n, (List.replicate n a).filterMap f = List.replicate n b := by
  intro n
  induction n with
  | zero => simp
  | succ n ih => simp [List.replicate_succ, h, ih]

/-- C1: if `total_snapshots` is 0, every derived statistic of the analysis dict —
`avg_interval_days`, `max_gap_days`, `years_covered`, `unique_versions`,
`first_snapshot`, `last_snapshot` — is `None`/absent, never zero; this holds in
both implementations of the engine. -/
theorem claim_c1 :
    (∀ (avail : Option ReportService.AvailResp) (records : List ReportService.CdxRecord)
       (tm : Option String),
      (ReportService.analyze_from avail records tm).total_snapshots = 0 →
        (ReportService.analyze_from avail records tm).first_snapshot = none ∧
        (ReportService.analyze_from avail records tm).last_snapshot = none ∧
        (ReportService.analyze_from avail records tm).avg_interval_days = none ∧
        (ReportService.analyze_from avail records tm).max_gap_days = none ∧
        (ReportService.analyze_from avail records tm).years_covered = none ∧
        (ReportService.analyze_from avail records tm).unique_versions = none) ∧
    (∀ snaps : List WaybackService.WbSnapshot,
      (WaybackService.analyze_domain snaps).total_snapshots = 0 →
        (WaybackService.analyze_domain snaps).first_snapshot_date = none ∧
        (WaybackService.analyze_domain snaps).last_snapshot_date = none ∧
        (WaybackService.analyze_domain snaps).avg_interval_days = none ∧
        (WaybackService.analyze_domain snaps).max_gap_days = none ∧
        (WaybackService.analyze_domain snaps).years_covered = none ∧
        (WaybackService.analyze_domain snaps).is_long_live = none) := by
  constructor
  · intro avail records tm h
    cases records with
    | nil => exact ⟨rfl, rfl, rfl, rfl, rfl, rfl⟩
    | cons r rs =>
      have h' : (r :: rs).length = 0 := h
      simp at h'
  · intro snaps h
    have hz : snaps.length = 0 := by
      by_cases hz : snaps.length = 0
      · exact hz
      · have h' : (WaybackService.analyze_domain snaps).total_snapshots = snaps.length := by
          simp [WaybackService.analyze_domain, hz]
        rw [h'] at h
        exact absurd h hz
    simp [WaybackService.analyze_domain, hz]

/-- C1 witness: both implementations at concrete empty inputs. -/
theorem claim_c1_witness :
    ((ReportService.analyze_from none [] none).first_snapshot = none ∧
     (ReportService.analyze_from none [] none).last_snapshot = none ∧
     (ReportService.analyze_from none [] none).avg_interval_days = none ∧
     (ReportService.analyze_from none [] none).max_gap_days = none ∧
     (ReportService.analyze_from none [] none).years_covered = none ∧
     (ReportService.analyze_from none [] none).unique_versions = none) ∧
    ((WaybackService.analyze_domain []).first_snapshot_date = none ∧
     (WaybackService.analyze_domain []).last_snapshot_date = none ∧
     (WaybackService.analyze_domain []).avg_interval_days = none ∧
     (WaybackService.analyze_domain []).max_gap_days = none ∧
     (WaybackService.analyze_domain []).years_covered = none ∧
     (WaybackService.analyze_domain []).is_long_live = none) :=
  ⟨claim_c1.1 none [] none (by decide), claim_c1.2 [] (by decide)⟩

/-- C2 counterexample: a single valid capture yields `avg_interval_days = 0` and
`max_gap_days = 0`, not absent values, contradicting the claim that both are
absent when fewer than one gap exists. -/
theorem claim_c2_counterexample :
    (ReportService.analyze_from none [capRecA] none).avg_interval_days = some 0 ∧
    (ReportService.analyze_from none [capRecA] none).max_gap_days = some 0 ∧
    ¬ (ReportService.analyze_from none [capRecA] none).avg_interval_days = none ∧
    ¬ (ReportService.analyze_from none [capRecA] none).max_gap_days = none := by
  decide

/-- C2 (amended): for every record list whose timestamp pipeline parses to a
non-empty date list, `avg_interval_days` is the two-decimal rounding of the
arithmetic mean of the consecutive gap list and `max_gap_days` its maximum when
at least one gap exists, and both are 0 (never absent) when the gap list is
empty, which happens exactly when fewer than two dates parsed. -/
theorem claim_c2 (avail : Option ReportService.AvailResp)
    (records : List ReportService.CdxRecord) (tm : Option String)
    (dates : List DateTime) (h : ReportService.parsedDates records = some dates)
    (hne : dates ≠ []) :
    (ReportService.analyze_from avail records tm).avg_interval_days =
      (if ReportService.gapsOf dates = [] then some 0
       else some (PyFloat.round2 (PyFloat.meanOfInts (ReportService.gapsOf dates)))) ∧
    (ReportService.analyze_from avail records tm).max_gap_days =
      (if ReportService.gapsOf dates = [] then some 0
       else (ReportService.gapsOf dates).max?) ∧
    (ReportService.gapsOf dates = [] ↔ dates.length < 2) := by
  have hrec : records ≠ [] := by
    intro he
    subst he
    rw [show ReportService.parsedDates [] = some [] from rfl] at h
    exact hne (Option.some_inj.mp h).symm
  refine ⟨?_, ?_, ?_⟩
  · show (ReportService.snapshot_stats records).avg_interval_days = _
    simp only [ReportService.snapshot_stats, if_neg hrec, h, if_neg hne]
  · show (ReportService.snapshot_stats records).max_gap_days = _
    simp only [ReportService.snapshot_stats, if_neg hrec, h, if_neg hne]
  · cases dates with
    | nil => simp [ReportService.gapsOf]
    | cons a as =>
      cases as with
      | nil => simp [ReportService.gapsOf]
      | cons b bs =>
        simp only [ReportService.gapsOf, List.tail_cons, List.zip_cons_cons,
          List.map_cons, List.length_cons]
        constructor
        · intro hx
          exact absurd hx (List.cons_ne_nil _ _)
        · intro hx
          omega

/-- C2 witness: the amended statement at a concrete two-capture input. -/
theorem claim_c2_witness :
    (ReportService.analyze_from none [capRecA, capRecB] none).avg_interval_days =
      (if ReportService.gapsOf [dtA, dtB] = [] then some 0
       else some (PyFloat.round2 (PyFloat.meanOfInts (ReportService.gapsOf [dtA, dtB])))) ∧
    (ReportService.analyze_from none [capRecA, capRecB] none).max_gap_days =
      (if ReportService.gapsOf [dtA, dtB] = [] then some 0
       else (ReportService.gapsOf [dtA, dtB]).max?) ∧
    (ReportService.gapsOf [dtA, dtB] = [] ↔ [dtA, dtB].length < 2) :=
  claim_c2 none [capRecA, capRecB] none [dtA, dtB] (by decide) (by decide)

/-- C3 counterexample: an HTTP 404 received on every attempt still issues all 3
upstream requests (it is retried), and so does a JSON-decode failure — the claim
that such failures are terminal for the call with no additional request is
false. -/
theorem claim_c3_counterexample :
    (ReportService.safe_request
      (fun _ => ReportService.AttemptOutcome.httpError 404 (α := Unit))).requests = 3 ∧
    ¬ (ReportService.safe_request
      (fun _ => ReportService.AttemptOutcome.httpError 404 (α := Unit))).requests = 1 ∧
    (ReportService.safe_request
      (fun _ => ReportService.AttemptOutcome.badJson (α := Unit))).requests = 3 := by
  decide

/-- C3 (amended): a 4xx status other than 429, and a JSON-decode failure after a
200, do not short-circuit the call: on a non-final attempt they fall through to
the common linear backoff and the attempt is retried; only when they occur on the
final attempt does the call return the no-data result, so a persistent such
failure consumes all `RETRY_COUNT` attempts with backoff
`RETRY_DELAY * 1 + RETRY_DELAY * 2`, and one such failure followed by a success
yields the success on the second request. -/
theorem claim_c3 (s : Nat) (h400 : 400 ≤ s) (h500 : s < 500) (h429 : s ≠ 429) :
    ReportService.safe_request (fun _ => ReportService.AttemptOutcome.httpError s (α := Unit)) =
      ⟨none, 3, ReportService.RETRY_DELAY * 1 + ReportService.RETRY_DELAY * 2⟩ ∧
    ReportService.safe_request
      (fun a => if a = 1 then ReportService.AttemptOutcome.httpError s
                else ReportService.AttemptOutcome.ok ()) = ⟨some (), 2, ReportService.RETRY_DELAY * 1⟩ ∧
    ReportService.safe_request (fun _ => ReportService.AttemptOutcome.badJson (α := Unit)) =
      ⟨none, 3, ReportService.RETRY_DELAY * 1 + ReportService.RETRY_DELAY * 2⟩ ∧
    ReportService.safe_request
      (fun a => if a = 1 then ReportService.AttemptOutcome.badJson
                else ReportService.AttemptOutcome.ok ()) = ⟨some (), 2, ReportService.RETRY_DELAY * 1⟩ := by
  interval_cases s <;> first | exact absurd rfl h429 | decide

/-- C3 witness: the amended statement at the concrete status 404. -/
theorem claim_c3_witness :
    ReportService.safe_request (fun _ => ReportService.AttemptOutcome.httpError 404 (α := Unit)) =
      ⟨none, 3, ReportService.RETRY_DELAY * 1 + ReportService.RETRY_DELAY * 2⟩ ∧
    ReportService.safe_request
      (fun a => if a = 1 then ReportService.AttemptOutcome.httpError 404
                else ReportService.AttemptOutcome.ok ()) = ⟨some (), 2, ReportService.RETRY_DELAY * 1⟩ ∧
    ReportService.safe_request (fun _ => ReportService.AttemptOutcome.badJson (α := Unit)) =
      ⟨none, 3, ReportService.RETRY_DELAY * 1 + ReportService.RETRY_DELAY * 2⟩ ∧
    ReportService.safe_request
      (fun a => if a = 1 then ReportService.AttemptOutcome.badJson
                else ReportService.AttemptOutcome.ok ()) = ⟨some (), 2, ReportService.RETRY_DELAY * 1⟩ :=
  claim_c3 404 (by decide) (by decide) (by decide)

/-- C4 counterexample: with 429 on attempts 1 and 2 and success on attempt 3, the
call succeeds but the total slept backoff is 18 seconds — the doubled 429 delay
PLUS the common linear delay on each failed attempt — not the claimed
`RETRY_DELAY * 1 * 2 + RETRY_DELAY * 2 * 2 = 12`. -/
theorem claim_c4_counterexample :
    (ReportService.safe_request
      (fun a => if a ≤ 2 then ReportService.AttemptOutcome.httpError 429
                else ReportService.AttemptOutcome.ok ())).delay = 18 ∧
    ¬ (ReportService.safe_request
      (fun a => if a ≤ 2 then ReportService.AttemptOutcome.httpError 429
                else ReportService.AttemptOutcome.ok ())).delay =
      ReportService.RETRY_DELAY * 1 * 2 + ReportService.RETRY_DELAY * 2 * 2 := by
  decide

/-- C4 (amended): on a retried (non-final) attempt `n`, the slept delay before
the next attempt is `RETRY_DELAY * n * 2 + RETRY_DELAY * n` for HTTP 429 (the
doubled rate-limit sleep followed by the common linear sleep),
`RETRY_DELAY * n + RETRY_DELAY * n` for HTTP 5xx, and exactly `RETRY_DELAY * n`
for timeouts, other client errors and unexpected errors; the 429-twice-then-200
mock therefore succeeds on request 3 with total backoff `9 * RETRY_DELAY = 18`. -/
theorem claim_c4 :
    (∀ {α : Type} (f : Nat → ReportService.AttemptOutcome α)
       (r attempt requests delay : Nat), attempt < ReportService.RETRY_COUNT →
      ((f attempt = ReportService.AttemptOutcome.httpError 429 →
        ReportService.safe_request_aux f (r + 1) attempt requests delay =
          ReportService.safe_request_aux f r (attempt + 1) (requests + 1)
            (delay + ReportService.RETRY_DELAY * attempt * 2 +
              ReportService.RETRY_DELAY * attempt)) ∧
       (∀ s, 500 ≤ s → f attempt = ReportService.AttemptOutcome.httpError s →
        ReportService.safe_request_aux f (r + 1) attempt requests delay =
          ReportService.safe_request_aux f r (attempt + 1) (requests + 1)
            (delay + ReportService.RETRY_DELAY * attempt +
              ReportService.RETRY_DELAY * attempt)) ∧
       (f attempt = ReportService.AttemptOutcome.timeoutErr →
        ReportService.safe_request_aux f (r + 1) attempt requests delay =
          ReportService.safe_request_aux f r (attempt + 1) (requests + 1)
            (delay + ReportService.RETRY_DELAY * attempt)) ∧
       (f attempt = ReportService.AttemptOutcome.clientErr →
        ReportService.safe_request_aux f (r + 1) attempt requests delay =
          ReportService.safe_request_aux f r (attempt + 1) (requests + 1)
            (delay + ReportService.RETRY_DELAY * attempt)) ∧
       (f attempt = ReportService.AttemptOutcome.unexpectedErr →
        ReportService.safe_request_aux f (r + 1) attempt requests delay =
          ReportService.safe_request_aux f r (attempt + 1) (requests + 1)
            (delay + ReportService.RETRY_DELAY * attempt)))) ∧
    ReportService.safe_request
      (fun a => if a ≤ 2 then ReportService.AttemptOutcome.httpError 429
                else ReportService.AttemptOutcome.ok ()) =
      ⟨some (), 3, 9 * ReportService.RETRY_DELAY⟩ := by
  constructor
  · intro α f r attempt requests delay hlt
    have hne : ¬ attempt = ReportService.RETRY_COUNT := Nat.ne_of_lt hlt
    refine ⟨?_, ?_, ?_, ?_, ?_⟩
    · intro h
      simp [ReportService.safe_request_aux, h, hlt]
    · intro s hs h
      have h429 : ¬ s = 429 := by omega
      simp [ReportService.safe_request_aux, h, hlt, h429, hs]
    · intro h
      simp [ReportService.safe_request_aux, h, hlt, hne]
    · intro h
      simp [ReportService.safe_request_aux, h, hlt, hne]
    · intro h
      simp [ReportService.safe_request_aux, h, hlt, hne]
  · decide

/-- C4 witness: the 429 step at attempt 1, and the 429-twice mock. -/
theorem claim_c4_witness :
    ReportService.safe_request_aux
      (fun _ => ReportService.AttemptOutcome.httpError 429 (α := Unit)) (1 + 1) 1 1 0 =
      ReportService.safe_request_aux
        (fun _ => ReportService.AttemptOutcome.httpError 429 (α := Unit)) 1 (1 + 1) (1 + 1)
        (0 + ReportService.RETRY_DELAY * 1 * 2 + ReportService.RETRY_DELAY * 1) ∧
    ReportService.safe_request
      (fun a => if a ≤ 2 then ReportService.AttemptOutcome.httpError 429
                else ReportService.AttemptOutcome.ok ()) =
      ⟨some (), 3, 9 * ReportService.RETRY_DELAY⟩ :=
  ⟨(claim_c4.1 (fun _ => ReportService.AttemptOutcome.httpError 429 (α := Unit))
      1 1 1 0 (by decide)).1 rfl,
   claim_c4.2⟩

/-- C5: `recommended` is true exactly when `total_snapshots` is at least 200 and
`avg_interval_days` is present and strictly below 30; at the boundary, 200
captures with average 29.999 is recommended and with average 30.0 is not. -/
theorem claim_c5 :
    (∀ (avail : Option ReportService.AvailResp) (records : List ReportService.CdxRecord)
       (tm : Option String),
      ((ReportService.analyze_from avail records tm).recommended = true ↔
        (200 ≤ (ReportService.analyze_from avail records tm).total_snapshots ∧
         ∃ a, (ReportService.analyze_from avail records tm).avg_interval_days = some a ∧
           a < PyFloat.ofInt 30))) ∧
    ReportService.recommended_flag 200 (some (PyFloat.mk' 29999 1000)) = true ∧
    ReportService.recommended_flag 200 (some (PyFloat.mk' 30 1)) = false := by
  refine ⟨?_, by decide, by decide⟩
  intro avail records tm
  show ReportService.recommended_flag records.length
      (ReportService.snapshot_stats records).avg_interval_days = true ↔
    (200 ≤ records.length ∧
     ∃ a, (ReportService.snapshot_stats records).avg_interval_days = some a ∧
       a < PyFloat.ofInt 30)
  cases h : (ReportService.snapshot_stats records).avg_interval_days with
  | none => simp [ReportService.recommended_flag]
  | some a => simp [ReportService.recommended_flag]

/-- C7 counterexample: two identical (timestamp, originalUrl) rows both count —
`total_snapshots` is 2, not 1, so no dedup by (timestamp, originalUrl) happens
before statistics. -/
theorem claim_c7_counterexample :
    (ReportService.analyze_from none [capRecA, capRecA] none).total_snapshots = 2 ∧
    ¬ (ReportService.analyze_from none [capRecA, capRecA] none).total_snapshots = 1 := by
  decide

/-- C7 (amended): the analysis performs no dedup of accumulated rows —
`total_snapshots` is always the raw record-list length, duplicates included; rows
with the wrong field count (or that are not list rows) are skipped by the page
mapper without aborting; but a 14-character timestamp that fails to parse aborts
the whole statistics block: the statistics are all set to absent while the record
still counts. -/
theorem claim_c7 :
    (∀ (avail : Option ReportService.AvailResp) (records : List ReportService.CdxRecord)
       (tm : Option String),
      (ReportService.analyze_from avail records tm).total_snapshots = records.length) ∧
    ReportService.pageRecordsHeaders c9Cols
      [ReportService.CdxBatchItem.arr [some "20200101000000", some "http://a.example/", some "AAA"],
       ReportService.CdxBatchItem.arr [some "20200102000000", some "http://a.example/"],
       ReportService.CdxBatchItem.obj [(some "timestamp", some "20200102000000")],
       ReportService.CdxBatchItem.other] =
      [[(some "timestamp", some "20200101000000"),
        (some "original", some "http://a.example/"),
        (some "digest", some "AAA")]] ∧
    ((ReportService.analyze_from none [capRecBad] none).total_snapshots = 1 ∧
     (ReportService.analyze_from none [capRecBad] none).avg_interval_days = none ∧
     (ReportService.analyze_from none [capRecBad] none).max_gap_days = none ∧
     (ReportService.analyze_from none [capRecBad] none).years_covered = none ∧
     (ReportService.analyze_from none [capRecBad] none).unique_versions = none) := by
  refine ⟨fun avail records tm => rfl, by decide, by decide⟩

/-- C8 counterexample: when every upstream fetch fails (the all-500 domain), the
analysis dict has NO error field set (`error` is absent) and its fields are not
absent — `total_snapshots` is 0 and `has_snapshot` is false — contradicting the
claim that the failed domain's record carries a set error field with all other
fields absent. -/
theorem claim_c8_counterexample :
    (ReportService.analyze_domain none (fun _ => none) 1000 none).map
      ReportService.DomainInfo.error = some none ∧
    (ReportService.analyze_domain none (fun _ => none) 1000 none).map
      ReportService.DomainInfo.total_snapshots = some 0 ∧
    (ReportService.analyze_domain none (fun _ => none) 1000 none).map
      ReportService.DomainInfo.has_snapshot = some false := by
  decide

/-- C8 (amended): the batch never loses a slot — it yields exactly one record per
input domain; a domain whose every fetch fails (e.g. persistent HTTP 500, which
exhausts `safe_request` into a `None` result) still produces a record, but that
record has no error field: it reports `has_snapshot = false`, zero counts, all
statistics absent and both flags false. -/
theorem claim_c8 :
    (∀ (domains : List String) (analyzeOf : String → ReportService.DomainInfo),
      (ReportService.run_batch domains analyzeOf).length = domains.length) ∧
    (ReportService.safe_request
      (fun _ => ReportService.AttemptOutcome.httpError 500 (α := Unit))).result = none ∧
    ReportService.analyze_domain none (fun _ => none) 1000 none =
      some ⟨false, none, 0, 0, none, none, none, none, none, none, none, false, false, none⟩ := by
  refine ⟨fun domains analyzeOf => ?_, by decide, by decide⟩
  simp [ReportService.run_batch]

/-- C10: in the long-live batch filter, absent values are coerced — counts to 0
and gap statistics to positive infinity — so a row with any of the five columns
absent is never selected. -/
theorem claim_c10 (r : ReportService.ResultRow)
    (h : r.total_snapshots = none ∨ r.years_covered = none ∨
      r.avg_interval_days = none ∨ r.max_gap_days = none ∨ r.timemap_count = none) :
    ReportService.long_live_filter r = false := by
  obtain ⟨t, y, a, m, c⟩ := r
  rcases h with h | h | h | h | h <;> subst h <;>
    simp only [ReportService.long_live_filter, ReportService.fill0,
      ReportService.fillInfLt, Option.getD_none, Option.getD_some] <;>
    first
      | (rw [show decide (PyFloat.ofInt 5 ≤ (0 : PyFloat)) = false from by decide]
         simp)
      | (rw [show decide (PyFloat.ofInt 3 ≤ (0 : PyFloat)) = false from by decide]
         simp)
      | (rw [show decide (PyFloat.ofInt 200 < (0 : PyFloat)) = false from by decide]
         simp)
      | simp

/-- C10 witness: a row with an absent capture count is filtered out. -/
theorem claim_c10_witness :
    ReportService.long_live_filter
      ⟨none, some (PyFloat.ofInt 3), some 0, some 0, some (PyFloat.ofInt 300)⟩ = false :=
  claim_c10 _ (Or.inl rfl)

/-- C6 counterexample: the wayback implementation classifies `longLiveSnaps` as
long-live although it fetches no timemap at all (its capture count from that
endpoint is 0), so the claimed five-condition characterization — which requires
`timemapCaptureCount > 200` — is false for this implementation. -/
theorem claim_c6_counterexample :
    (WaybackService.analyze_domain longLiveSnaps).is_long_live = some true ∧
    ¬ spec_isLongLive
        (PyFloat.ofInt ((WaybackService.analyze_domain longLiveSnaps).total_snapshots : Int))
        ((WaybackService.analyze_domain longLiveSnaps).years_covered.getD 0)
        ((WaybackService.analyze_domain longLiveSnaps).avg_interval_days.getD 0)
        ((WaybackService.analyze_domain longLiveSnaps).max_gap_days.getD 0)
        (PyFloat.ofInt 0) := by
  decide

/-- C6 (amended): the five-condition characterization holds for the long-live
batch filter of `generate_report` on rows whose five columns are all present; the
wayback implementation instead classifies long-live by only FOUR conditions —
captures, years covered (there a fractional-year span), average interval and
maximum gap — with no timemap condition at all. -/
theorem claim_c6 :
    (∀ t y a m c : PyFloat,
      (ReportService.long_live_filter ⟨some t, some y, some a, some m, some c⟩ = true ↔
        spec_isLongLive t y a m c)) ∧
    (∀ snaps : List WaybackService.WbSnapshot, snaps.length ≠ 0 →
      ((WaybackService.analyze_domain snaps).is_long_live = some true ↔
        (5 ≤ (WaybackService.analyze_domain snaps).total_snapshots ∧
         ∃ y a m,
           (WaybackService.analyze_domain snaps).years_covered = some y ∧
           PyFloat.ofInt 3 ≤ y ∧
           (WaybackService.analyze_domain snaps).avg_interval_days = some a ∧
           a < PyFloat.ofInt 90 ∧
           (WaybackService.analyze_domain snaps).max_gap_days = some m ∧
           m < PyFloat.ofInt 180))) := by
  constructor
  · intro t y a m c
    simp only [ReportService.long_live_filter, ReportService.fill0,
      ReportService.fillInfLt, Option.getD_some, spec_isLongLive,
      Bool.and_eq_true, decide_eq_true_eq]
    tauto
  · intro snaps h
    simp only [WaybackService.analyze_domain, if_neg h, Option.some.injEq,
      Bool.and_eq_true, decide_eq_true_eq]
    constructor
    · rintro ⟨⟨⟨h5, hy⟩, ha⟩, hm⟩
      exact ⟨h5, _, _, _, rfl, hy, rfl, ha, rfl, hm⟩
    · rintro ⟨h5, y, a, m, hy_eq, hy, ha_eq, ha, hm_eq, hm⟩
      cases hy_eq
      cases ha_eq
      cases hm_eq
      exact ⟨⟨⟨h5, hy⟩, ha⟩, hm⟩

/-- C6 witness: the filter iff at a concrete qualifying row, and the wayback
four-condition characterization applied to the concrete long-live snapshot set. -/
theorem claim_c6_witness :
    ReportService.long_live_filter
      ⟨some (PyFloat.ofInt 5), some (PyFloat.ofInt 3), some 0, some 0,
       some (PyFloat.ofInt 201)⟩ = true ∧
    (5 ≤ (WaybackService.analyze_domain longLiveSnaps).total_snapshots ∧
     ∃ y a m,
       (WaybackService.analyze_domain longLiveSnaps).years_covered = some y ∧
       PyFloat.ofInt 3 ≤ y ∧
       (WaybackService.analyze_domain longLiveSnaps).avg_interval_days = some a ∧
       a < PyFloat.ofInt 90 ∧
       (WaybackService.analyze_domain longLiveSnaps).max_gap_days = some m ∧
       m < PyFloat.ofInt 180) :=
  ⟨(claim_c6.1 (PyFloat.ofInt 5) (PyFloat.ofInt 3) 0 0 (PyFloat.ofInt 201)).mpr (by decide),
   (claim_c6.2 longLiveSnaps (by decide)).mp (by decide)⟩

/-- Helper: one pagination-loop iteration on a full header-prefixed page that
triggers neither stop condition steps to the next offset. -/
theorem cdx_loop_step_full (fetch : Nat → Option ReportService.CdxBatch)
    (limit fuel offset : Nat) (records : List ReportService.CdxRecord) (calls : Nat)
    (cols : List ReportService.Cell) (rows : List ReportService.CdxBatchItem)
    (hf : fetch offset = some (ReportService.CdxBatchItem.arr cols :: rows))
    (hrows : rows ≠ [])
    (hcur : ¬ (ReportService.pageRecordsHeaders cols rows).length < limit)
    (hceil : ¬ (50000 < offset + limit ∧ 0 < limit)) :
    ReportService.cdx_loop fetch limit (fuel + 1) offset records calls =
      ReportService.cdx_loop fetch limit fuel (offset + limit)
        (records ++ ReportService.pageRecordsHeaders cols rows) (calls + 1) := by
  simp only [ReportService.cdx_loop, hf]
  rw [if_neg hrows, if_neg hcur, if_neg hceil]

/-- Helper: a full header-prefixed page whose next offset crosses the 50000
ceiling ends the pagination with that page's records included. -/
theorem cdx_loop_stop_ceiling (fetch : Nat → Option ReportService.CdxBatch)
    (limit fuel offset : Nat) (records : List ReportService.CdxRecord) (calls : Nat)
    (cols : List ReportService.Cell) (rows : List ReportService.CdxBatchItem)
    (hf : fetch offset = some (ReportService.CdxBatchItem.arr cols :: rows))
    (hrows : rows ≠ [])
    (hcur : ¬ (ReportService.pageRecordsHeaders cols rows).length < limit)
    (hceil : 50000 < offset + limit ∧ 0 < limit) :
    ReportService.cdx_loop fetch limit (fuel + 1) offset records calls =
      some (records ++ ReportService.pageRecordsHeaders cols rows, calls + 1) := by
  simp only [ReportService.cdx_loop, hf]
  rw [if_neg hrows, if_neg hcur, if_pos hceil]

/-- Helper: a header-only page ends the pagination with the records accumulated
so far. -/
theorem cdx_loop_stop_hdr (fetch : Nat → Option ReportService.CdxBatch)
    (limit fuel offset : Nat) (records : List ReportService.CdxRecord) (calls : Nat)
    (cols : List ReportService.Cell)
    (hf : fetch offset = some [ReportService.CdxBatchItem.arr cols]) :
    ReportService.cdx_loop fetch limit (fuel + 1) offset records calls =
      some (records, calls + 1) := by
  simp [ReportService.cdx_loop, hf]

/-- Helper: with a positive page size the pagination loop never runs out of fuel
once the fuel exceeds the width of the admissible offset range, because each
continuing iteration advances the offset by `limit ≥ 1` and the loop always stops
beyond offset 50000. -/
theorem cdx_loop_isSome (fetch : Nat → Option ReportService.CdxBatch) (limit : Nat)
    (hl : 1 ≤ limit) :
    ∀ (fuel offset : Nat) (records : List ReportService.CdxRecord) (calls : Nat),
      offset ≤ 50000 → 50000 < offset + fuel →
      (ReportService.cdx_loop fetch limit fuel offset records calls).isSome = true := by
  intro fuel
  induction fuel with
  | zero =>
    intro offset records calls h1 h2
    omega
  | succ n ih =>
    intro offset records calls h1 h2
    simp only [ReportService.cdx_loop]
    split
    · rfl
    · rfl
    · rename_i first rest heq
      split
      · rename_i cols
        by_cases hr : rest = []
        · rw [if_pos hr]
          rfl
        · rw [if_neg hr]
          by_cases hcur : (ReportService.pageRecordsHeaders cols rest).length < limit
          · rw [if_pos hcur]
            rfl
          · rw [if_neg hcur]
            by_cases hceil : 50000 < offset + limit ∧ 0 < limit
            · rw [if_pos hceil]
              rfl
            · rw [if_neg hceil]
              have h0 : ¬ 50000 < offset + limit := fun hx => hceil ⟨hx, by omega⟩
              exact ih (offset + limit) _ _ (by omega) (by omega)
      · rename_i fields
        by_cases hcur :
            (ReportService.pageRecordsDicts
              (ReportService.CdxBatchItem.obj fields :: rest)).length < limit
        · rw [if_pos hcur]
          rfl
        · rw [if_neg hcur]
          by_cases hceil : 50000 < offset + limit ∧ 0 < limit
          · rw [if_pos hceil]
            rfl
          · rw [if_neg hceil]
            have h0 : ¬ 50000 < offset + limit := fun hx => hceil ⟨hx, by omega⟩
            exact ih (offset + limit) _ _ (by omega) (by omega)
      · rfl

/-- C9 counterexample: at page size 50001 an upstream that returns exactly one
full page at offset 0 and an empty page afterwards is stopped by the 50000
safety ceiling after ONE upstream call, not the claimed two. -/
theorem claim_c9_counterexample :
    (ReportService.cdx_paginate c9FetchBig 50001).map Prod.snd = some 1 ∧
    ¬ (ReportService.cdx_paginate c9FetchBig 50001).map Prod.snd = some 2 := by
  have hrows : List.replicate 50001 cdxRowItem ≠ [] := by
    rw [show (50001 : Nat) = 50000 + 1 from rfl, List.replicate_succ]
    exact List.cons_ne_nil _ _
  have hrec : ReportService.pageRecordsHeaders
      [some "timestamp", some "original", some "digest"]
      (List.replicate 50001 cdxRowItem) =
      List.replicate 50001
        [((some "timestamp" : ReportService.Cell), (some "20200101000000" : ReportService.Cell)),
         (some "original", some "http://a.example/"), (some "digest", some "AAA")] :=
    filterMap_replicate_some _ _ _ (by decide) 50001
  have hcur : ¬ (ReportService.pageRecordsHeaders
      [some "timestamp", some "original", some "digest"]
      (List.replicate 50001 cdxRowItem)).length < 50001 := by
    rw [hrec, List.length_replicate]
    exact Nat.lt_irrefl _
  have hval : ReportService.cdx_paginate c9FetchBig 50001 =
      some (([] : List ReportService.CdxRecord) ++ ReportService.pageRecordsHeaders
        [some "timestamp", some "original", some "digest"]
        (List.replicate 50001 cdxRowItem), 0 + 1) := by
    rw [show ReportService.cdx_paginate c9FetchBig 50001 =
        ReportService.cdx_loop c9FetchBig 50001 (50000 + 1) 0 [] 0 from rfl]
    exact cdx_loop_stop_ceiling c9FetchBig 50001 50000 0 [] 0 _ _ rfl hrows hcur
      ⟨by omega, by omega⟩
  constructor
  · rw [hval, Option.map_some']
  · rw [hval, Option.map_some']
    intro h
    exact absurd (Option.some_inj.mp h) (by omega)

/-- C9 (amended): with a positive page size the enumeration always terminates
(the fuel bound is never exhausted): a page with fewer than `limit` data rows
ends it, and offsets beyond the 50000 ceiling force termination even under full
pages.  An upstream returning exactly `limit` well-formed rows at offset 0 and an
empty (header-only) page at the next offset yields exactly that page's records
with exactly 2 upstream calls, PROVIDED `limit ≤ 50000`; for larger page sizes
the ceiling already stops the enumeration after 1 call, as the counterexample
shows. -/
theorem claim_c9 :
    (∀ (fetch : Nat → Option ReportService.CdxBatch) (limit : Nat), 1 ≤ limit →
      (ReportService.cdx_paginate fetch limit).isSome = true) ∧
    (∀ (cols : List ReportService.Cell) (rows : List ReportService.CdxBatchItem)
       (limit : Nat) (fetch : Nat → Option ReportService.CdxBatch),
      1 ≤ limit → limit ≤ 50000 →
      fetch 0 = some (ReportService.CdxBatchItem.arr cols :: rows) →
      rows ≠ [] →
      (ReportService.pageRecordsHeaders cols rows).length = limit →
      fetch limit = some [ReportService.CdxBatchItem.arr cols] →
      ReportService.cdx_paginate fetch limit =
        some (ReportService.pageRecordsHeaders cols rows, 2)) := by
  constructor
  · intro fetch limit hl
    exact cdx_loop_isSome fetch limit hl ReportService.CDX_FUEL 0 [] 0
      (by omega) (by norm_num [ReportService.CDX_FUEL])
  · intro cols rows limit fetch hl hle hf0 hrows hlen hfl
    rw [show ReportService.cdx_paginate fetch limit =
        ReportService.cdx_loop fetch limit (50000 + 1) 0 [] 0 from rfl]
    rw [cdx_loop_step_full fetch limit 50000 0 [] 0 cols rows hf0 hrows
      (by rw [hlen]; exact Nat.lt_irrefl _)
      (by intro hc; omega)]
    simp only [Nat.zero_add, List.nil_append]
    rw [show (50000 : Nat) = 49999 + 1 from rfl]
    rw [cdx_loop_stop_hdr fetch limit 49999 limit _ 1 cols hfl]

/-- C9 witness: termination at a failing upstream with page size 1, and the
2-page scenario at page size 2. -/
theorem claim_c9_witness :
    (ReportService.cdx_paginate (fun _ => none) 1).isSome = true ∧
    ReportService.cdx_paginate c9Fetch2 2 =
      some (ReportService.pageRecordsHeaders c9Cols c9Rows, 2) :=
  ⟨claim_c9.1 (fun _ => none) 1 (by decide),
   claim_c9.2 c9Cols c9Rows 2 c9Fetch2 (by decide) (by decide) rfl (by decide)
     (by decide) rfl⟩

